import Mathlib

/-!
Verification of the mapsheat hotspot-detection core.

Shallow embedding of `src/utils/data_processing.py` (the hotspot detector
`identify_hotspots`, the severity classifier, and the synthetic coordinate
generator `generate_coordinates_around_city`), of the report-store append
operation `add_community_report` from `src/utils/api_handlers.py`, and of the
submit handler from `src/pages/community_input.py`.

Temperatures and coordinates are modelled as rationals (the Python floats of
the source carry decimal literals that are exact here); dataframes become
lists of records; DBSCAN is embedded as the standard labelling algorithm used
by scikit-learn (neighbourhood = euclidean distance at most eps, a point
counts itself; core point = at least min_samples neighbours; clusters grown
from unlabelled core points by a depth-first stack expansion, remaining
points labelled -1 for noise).
-/

attribute [local semireducible] Rat.add Rat.mul Rat.sub Rat.inv Rat.ofScientific

set_option maxRecDepth 40000

/-- One community temperature report (a row of the reports dataframe). -/
structure Report where
  latitude : ℚ
  longitude : ℚ
  temperature : ℚ
  timestamp : String
  description : String
  reporter : String
deriving DecidableEq, Repr

/-- One detected hotspot (a row of the result dataframe of `identify_hotspots`). -/
structure Hotspot where
  latitude : ℚ
  longitude : ℚ
  temperature : ℚ
  severity : String
deriving DecidableEq, Repr

/-- Arithmetic mean of a list of rationals (pandas `mean` aggregation). -/
def mean (l : List ℚ) : ℚ := l.sum / (l.length : ℚ)

/-- Round-half-to-even to the nearest integer, the rounding used by
numpy/pandas `round`. -/
def roundHalfEven (q : ℚ) : ℤ :=
  let f := ⌊q⌋
  let r : ℚ := q - (f : ℚ)
  if r < 1/2 then f
  else if 1/2 < r then f + 1
  else if f % 2 = 0 then f else f + 1

/-- `x.round(1)` of pandas: round to one decimal place. -/
def round1 (q : ℚ) : ℚ := ((roundHalfEven (q * 10) : ℚ)) / 10

/-- The inner severity classifier of `identify_hotspots`
(`src/utils/data_processing.py` lines 53-60): applied to a cluster's mean
temperature before that mean is rounded for output. -/
def calculate_severity (temp : ℚ) : String :=
  if 35 ≤ temp then "Extreme"
  else if 32 ≤ temp then "High"
  else "Moderate"

/-- Squared euclidean distance between two (latitude, longitude) points. -/
def dist2 (p q : ℚ × ℚ) : ℚ := (p.1 - q.1) * (p.1 - q.1) + (p.2 - q.2) * (p.2 - q.2)

/-- Indices of the points within distance `eps` of point `i` (DBSCAN
neighbourhood; a point is a neighbour of itself). -/
def dbNeighbors (coords : List (ℚ × ℚ)) (eps : ℚ) (i : ℕ) : List ℕ :=
  (List.range coords.length).filter
    (fun j => decide (dist2 (coords.getD i (0, 0)) (coords.getD j (0, 0)) ≤ eps * eps))

/-- DBSCAN core-point test: at least `min_samples` neighbours. -/
def dbIsCore (coords : List (ℚ × ℚ)) (eps : ℚ) (min_samples : ℕ) (i : ℕ) : Bool :=
  decide (min_samples ≤ (dbNeighbors coords eps i).length)

/-- Depth-first cluster expansion of scikit-learn's `dbscan_inner`: pop a point
from the stack; if still unlabelled (-1), give it the current cluster label,
and when it is a core point push its unlabelled neighbours. `fuel` bounds the
iteration count. -/
def dbExpand (coords : List (ℚ × ℚ)) (eps : ℚ) (min_samples : ℕ) :
    ℕ → Array ℤ → List ℕ → ℤ → Array ℤ
  | 0, labels, _, _ => labels
  | _ + 1, labels, [], _ => labels
  | fuel + 1, labels, i :: rest, ln =>
    if labels.getD i 0 = -1 then
      let labels2 := labels.setD i ln
      if dbIsCore coords eps min_samples i then
        dbExpand coords eps min_samples fuel labels2
          (((dbNeighbors coords eps i).filter
              (fun v => decide (labels2.getD v 0 = -1))).reverse ++ rest) ln
      else
        dbExpand coords eps min_samples fuel labels2 rest ln
    else
      dbExpand coords eps min_samples fuel labels rest ln

/-- Outer loop of DBSCAN labelling: scan points in index order; every still
unlabelled core point seeds a new cluster, expanded by `dbExpand`. -/
def dbOuter (coords : List (ℚ × ℚ)) (eps : ℚ) (min_samples : ℕ) :
    List ℕ → Array ℤ → ℤ → Array ℤ
  | [], labels, _ => labels
  | i :: rest, labels, ln =>
    if labels.getD i 0 = -1 ∧ dbIsCore coords eps min_samples i = true then
      dbOuter coords eps min_samples rest
        (dbExpand coords eps min_samples
          (coords.length * coords.length + coords.length + 1) labels [i] ln)
        (ln + 1)
    else
      dbOuter coords eps min_samples rest labels ln

/-- DBSCAN cluster labels for a list of points: label `0, 1, 2, ...` per
cluster in discovery order, `-1` for noise (the `clustering.labels_` array). -/
def dbscanLabels (coords : List (ℚ × ℚ)) (eps : ℚ) (min_samples : ℕ) : List ℤ :=
  (dbOuter coords eps min_samples (List.range coords.length)
    (Array.mkArray coords.length (-1)) 0).toList

/-- The filter step: `community_reports_df[community_reports_df['temperature'] >= temp_threshold]`. -/
def highTemp (df : List Report) (temp_threshold : ℚ) : List Report :=
  df.filter (fun r => decide (temp_threshold ≤ r.temperature))

/-- The coordinate extraction: `high_temp_reports[['latitude', 'longitude']].values`. -/
def reportCoords (rs : List Report) : List (ℚ × ℚ) :=
  rs.map (fun r => (r.latitude, r.longitude))

/-- The filtered reports paired with their DBSCAN cluster labels
(`high_temp_reports['cluster'] = clustering.labels_`). -/
def labeledReports (df : List Report) (eps : ℚ) (min_samples : ℕ)
    (temp_threshold : ℚ) : List (Report × ℤ) :=
  (highTemp df temp_threshold).zip
    (dbscanLabels (reportCoords (highTemp df temp_threshold)) eps min_samples)

/-- The noise removal: `high_temp_reports[high_temp_reports['cluster'] != -1]`. -/
def clusteredReports (df : List Report) (eps : ℚ) (min_samples : ℕ)
    (temp_threshold : ℚ) : List (Report × ℤ) :=
  (labeledReports df eps min_samples temp_threshold).filter
    (fun p => decide (p.2 ≠ -1))

/-- The distinct cluster labels, ascending (pandas `groupby('cluster')` sorts
its group keys). -/
def clusterIds (df : List Report) (eps : ℚ) (min_samples : ℕ)
    (temp_threshold : ℚ) : List ℤ :=
  (((clusteredReports df eps min_samples temp_threshold).map Prod.snd).dedup).insertionSort
    (fun a b => a ≤ b)

/-- The reports assigned to cluster `c`. -/
def clusterMembers (df : List Report) (eps : ℚ) (min_samples : ℕ)
    (temp_threshold : ℚ) (c : ℤ) : List Report :=
  ((clusteredReports df eps min_samples temp_threshold).filter
    (fun p => decide (p.2 = c))).map Prod.fst

/-- The aggregation row for cluster `c`: centroid and mean temperature
(`groupby('cluster').agg(mean)`), severity from the unrounded mean, then the
mean temperature rounded to 1 decimal for output. -/
def mkHotspot (df : List Report) (eps : ℚ) (min_samples : ℕ)
    (temp_threshold : ℚ) (c : ℤ) : Hotspot :=
  let members := clusterMembers df eps min_samples temp_threshold c
  { latitude := mean (members.map (fun r => r.latitude))
    longitude := mean (members.map (fun r => r.longitude))
    temperature := round1 (mean (members.map (fun r => r.temperature)))
    severity := calculate_severity (mean (members.map (fun r => r.temperature))) }

/-- `identify_hotspots` of `src/utils/data_processing.py`: `none` models the
`return None` taken on an empty input dataframe; `some hs` models a returned
dataframe with rows `hs`. -/
def identify_hotspots (df : List Report) (eps : ℚ) (min_samples : ℕ)
    (temp_threshold : ℚ) : Option (List Hotspot) :=
  if df.isEmpty then none
  else if (highTemp df temp_threshold).length < min_samples then some []
  else if clusteredReports df eps min_samples temp_threshold = [] then some []
  else some ((clusterIds df eps min_samples temp_threshold).map
    (mkHotspot df eps min_samples temp_threshold))

/-- State-passing view of `identify_hotspots`: the report store is threaded
through the call and handed back alongside the result. In the source the only
write performed during detection is the cluster-column assignment at line 38,
and it is applied to `high_temp_reports.copy()` (line 37), never to the input
dataframe, so the store comes back exactly as it went in. -/
def identify_hotspots_frame (store : List Report) (eps : ℚ) (min_samples : ℕ)
    (temp_threshold : ℚ) : Option (List Hotspot) × List Report :=
  (identify_hotspots store eps min_samples temp_threshold, store)

/-- The fixed city-name to center-coordinate table of
`generate_coordinates_around_city` (twenty entries, US and Indian cities). -/
def city_centers : List (String × ℚ × ℚ) := [
  ("New York", (40.7128, -74.0060)),
  ("Los Angeles", (34.0522, -118.2437)),
  ("Chicago", (41.8781, -87.6298)),
  ("Houston", (29.7604, -95.3698)),
  ("Phoenix", (33.4484, -112.0740)),
  ("Philadelphia", (39.9526, -75.1652)),
  ("San Antonio", (29.4241, -98.4936)),
  ("San Diego", (32.7157, -117.1611)),
  ("Dallas", (32.7767, -96.7970)),
  ("San Jose", (37.3382, -121.8863)),
  ("Mumbai", (19.0760, 72.8777)),
  ("Delhi", (28.6139, 77.2090)),
  ("Bangalore", (12.9716, 77.5946)),
  ("Hyderabad", (17.3850, 78.4867)),
  ("Chennai", (13.0827, 80.2707)),
  ("Kolkata", (22.5726, 88.3639)),
  ("Pune", (18.5204, 73.8567)),
  ("Ahmedabad", (23.0225, 72.5714)),
  ("Jaipur", (26.9124, 75.7873)),
  ("Lucknow", (26.8467, 80.9462))]

/-- The city names present in the table. -/
def cityNames : List String := city_centers.map Prod.fst

/-- City-center lookup with the source's fallback: a name not in the table is
replaced by "New York" before indexing, so the default is New York's center. -/
def cityCenter (city_name : String) : ℚ × ℚ :=
  ((city_centers.find? (fun p => p.1 == city_name)).getD
    ("New York", (40.7128, -74.0060))).2

/-- `generate_coordinates_around_city` of `src/utils/data_processing.py`.
`random.random()` draws are modelled by the stream `draws`: point `i` uses
`(draws i).1` for the distance draw and `(draws i).2` for the angle draw, both
uniform on [0, 1) in the source. The trigonometry forces the codomain ℝ. -/
noncomputable def generate_coordinates_around_city (city_name : String)
    (num_points : ℕ) (radius : ℝ) (draws : ℕ → ℝ × ℝ) : List (ℝ × ℝ) :=
  let city_center := cityCenter city_name
  (List.range num_points).map (fun i =>
    let random_distance := radius * Real.sqrt (draws i).1
    let random_angle := 2 * Real.pi * (draws i).2
    let x_offset := random_distance * Real.cos random_angle
    let y_offset := random_distance * Real.sin random_angle
    (((city_center.1 : ℝ)) + y_offset, ((city_center.2 : ℝ)) + x_offset))

/-- Planar degree distance between two (latitude, longitude) points, the
metric in which `radius` bounds the generated offsets. -/
noncomputable def planarDist (p q : ℝ × ℝ) : ℝ :=
  Real.sqrt ((p.1 - q.1)^2 + (p.2 - q.2)^2)

/-- `add_community_report` of `src/utils/api_handlers.py`. Its signature is
`(lat, lon, temperature, description, reporter)` - it has no timestamp
parameter; the stored timestamp is always `datetime.now()` formatted, which is
modelled by the extra `now` argument standing for the server clock at call
time. The `try` block cannot fail on well-formed input, so the flag is true. -/
def add_community_report (now : String) (lat lon temperature : ℚ)
    (description reporter : String) (store : List Report) : Bool × List Report :=
  (true, store ++ [{ latitude := lat, longitude := lon, temperature := temperature,
                     timestamp := now, description := description, reporter := reporter }])

/-- The "Submit Temperature Report" handler of `src/pages/community_input.py`
(lines 86-110): it computes `timestamp` from the time choice ("Now" or
"Custom" with a user-picked date and time) but then calls
`add_community_report` without passing it, exactly as the source does - the
computed value is dead. Validation rejects temperatures outside [-50, 60]. -/
def submitTemperatureReport (now : String) (time_choice : String)
    (custom_timestamp : String) (lat lon temperature : ℚ)
    (description reporter : String) (store : List Report) : Bool × List Report :=
  let _timestamp := if time_choice = "Custom" then custom_timestamp else now
  if temperature < -50 ∨ 60 < temperature then (false, store)
  else add_community_report now lat lon temperature description reporter store

/-- The report set of the spec's end-to-end example: three reports around New
York above the 30 degree threshold and one cool Los Angeles report. -/
def ex1 : List Report := [
  { latitude := 40.70, longitude := -74.00, temperature := 36,
    timestamp := "", description := "", reporter := "" },
  { latitude := 40.701, longitude := -74.001, temperature := 34,
    timestamp := "", description := "", reporter := "" },
  { latitude := 40.702, longitude := -74.002, temperature := 35,
    timestamp := "", description := "", reporter := "" },
  { latitude := 34.05, longitude := -118.24, temperature := 22,
    timestamp := "", description := "", reporter := "" }]

/-- Three co-located reports whose mean temperature is 34.96: the unrounded
mean classifies as "High" while the rounded output temperature reads 35.0. -/
def exC2 : List Report := [
  { latitude := 10, longitude := 10, temperature := 34.96,
    timestamp := "", description := "", reporter := "" },
  { latitude := 10, longitude := 10, temperature := 34.96,
    timestamp := "", description := "", reporter := "" },
  { latitude := 10, longitude := 10, temperature := 34.96,
    timestamp := "", description := "", reporter := "" }]

/-- Another cluster with unrounded mean 34.96 (temperatures 34.90, 34.99,
34.99), placed at (20, 30). -/
def exC10 : List Report := [
  { latitude := 20, longitude := 30, temperature := 34.90,
    timestamp := "", description := "", reporter := "" },
  { latitude := 20, longitude := 30, temperature := 34.99,
    timestamp := "", description := "", reporter := "" },
  { latitude := 20, longitude := 30, temperature := 34.99,
    timestamp := "", description := "", reporter := "" }]

/-- A single cool report, below any of the thresholds used here. -/
def exCold : List Report := [
  { latitude := 0, longitude := 0, temperature := 10,
    timestamp := "", description := "", reporter := "" }]

theorem le_mean_of_forall_le (a : ℚ) (l : List ℚ) (hne : l ≠ [])
    (h : ∀ x ∈ l, a ≤ x) : a ≤ mean l := by
  have hlen : 0 < (l.length : ℚ) := by
    have h0 : 0 < l.length := List.length_pos.mpr hne
    exact_mod_cast h0
  rw [mean, le_div_iff₀ hlen]
  have hs := List.card_nsmul_le_sum l a h
  rwa [nsmul_eq_mul, mul_comm] at hs

theorem exists_clusterId_of_mem (df : List Report) (eps : ℚ) (ms : ℕ) (thr : ℚ)
    (hs : List Hotspot) (h : Hotspot)
    (hres : identify_hotspots df eps ms thr = some hs) (hmem : h ∈ hs) :
    ∃ c, c ∈ clusterIds df eps ms thr ∧ h = mkHotspot df eps ms thr c := by
  unfold identify_hotspots at hres
  split at hres
  · cases hres
  · split at hres
    · injection hres with h1
      subst h1
      cases hmem
    · split at hres
      · injection hres with h1
        subst h1
        cases hmem
      · injection hres with h1
        subst h1
        obtain ⟨c, hc, heq⟩ := List.mem_map.mp hmem
        exact ⟨c, hc, heq.symm⟩

theorem exists_member_of_mem_clusterIds {df : List Report} {eps : ℚ} {ms : ℕ}
    {thr : ℚ} {c : ℤ} (hc : c ∈ clusterIds df eps ms thr) :
    ∃ p, p ∈ clusteredReports df eps ms thr ∧ p.2 = c := by
  rw [clusterIds, List.mem_insertionSort, List.mem_dedup] at hc
  obtain ⟨p, hp, hpc⟩ := List.mem_map.mp hc
  exact ⟨p, hp, hpc⟩

theorem clusterMembers_ne_nil {df : List Report} {eps : ℚ} {ms : ℕ} {thr : ℚ}
    {c : ℤ} (hc : c ∈ clusterIds df eps ms thr) :
    clusterMembers df eps ms thr c ≠ [] := by
  obtain ⟨p, hp, hpc⟩ := exists_member_of_mem_clusterIds hc
  have hmem : p.1 ∈ clusterMembers df eps ms thr c := by
    apply List.mem_map_of_mem Prod.fst
    exact List.mem_filter.mpr ⟨hp, by simp [hpc]⟩
  exact List.ne_nil_of_mem hmem

theorem temp_le_of_mem_clusterMembers {df : List Report} {eps : ℚ} {ms : ℕ}
    {thr : ℚ} {c : ℤ} {r : Report} (hr : r ∈ clusterMembers df eps ms thr c) :
    thr ≤ r.temperature := by
  obtain ⟨p, hp, hpr⟩ := List.mem_map.mp hr
  have hp2 : p ∈ clusteredReports df eps ms thr := (List.mem_filter.mp hp).1
  have hp3 : p ∈ labeledReports df eps ms thr := (List.mem_filter.mp hp2).1
  have hp4 : p.1 ∈ highTemp df thr := (List.of_mem_zip hp3).1
  have hp5 := (List.mem_filter.mp hp4).2
  rw [← hpr]
  exact of_decide_eq_true hp5

theorem thr_le_mean_temp {df : List Report} {eps : ℚ} {ms : ℕ} {thr : ℚ}
    {c : ℤ} (hc : c ∈ clusterIds df eps ms thr) :
    thr ≤ mean ((clusterMembers df eps ms thr c).map (fun r => r.temperature)) := by
  apply le_mean_of_forall_le
  · intro hnil
    exact clusterMembers_ne_nil hc (List.map_eq_nil_iff.mp hnil)
  · intro x hx
    obtain ⟨r, hr, rfl⟩ := List.mem_map.mp hx
    exact temp_le_of_mem_clusterMembers hr

/-- C1: on the report set [(40.70,-74.00,36), (40.701,-74.001,34),
(40.702,-74.002,35), (34.05,-118.24,22)] with eps=0.01, min_samples=3,
temp_threshold=30, `identify_hotspots` returns exactly one hotspot, with
centroid (40.701, -74.001), mean temperature 35.0 and severity "Extreme"; the
single cluster (id 0) consists of exactly the three New York reports, so the
cool Los Angeles report contributes to no hotspot. -/
theorem c1_end_to_end_example :
    identify_hotspots ex1 (1/100) 3 30 =
      some [{ latitude := 40.701, longitude := -74.001, temperature := 35,
              severity := "Extreme" }] ∧
    clusterIds ex1 (1/100) 3 30 = [0] ∧
    clusterMembers ex1 (1/100) 3 30 0 = [
      { latitude := 40.70, longitude := -74.00, temperature := 36,
        timestamp := "", description := "", reporter := "" },
      { latitude := 40.701, longitude := -74.001, temperature := 34,
        timestamp := "", description := "", reporter := "" },
      { latitude := 40.702, longitude := -74.002, temperature := 35,
        timestamp := "", description := "", reporter := "" }] := by decide

/-- C3 counterexample: the empty report set has fewer than min_samples=3
reports at or above the threshold, yet `identify_hotspots` returns the null
marker (`return None`), not an empty sequence. -/
theorem c3_counterexample :
    (highTemp ([] : List Report) 30).length < 3 ∧
    identify_hotspots ([] : List Report) (1/100) 3 30 ≠ some [] := by decide

/-- C3 (amended): for every NONEMPTY report set in which fewer than
min_samples reports are at or above the threshold, `identify_hotspots`
returns the empty sequence. -/
theorem c3_insufficient_data (df : List Report) (eps : ℚ) (ms : ℕ) (thr : ℚ)
    (hne : df ≠ []) (hlt : (highTemp df thr).length < ms) :
    identify_hotspots df eps ms thr = some [] := by
  have h1 : ¬ (df.isEmpty = true) := by simp [hne]
  unfold identify_hotspots
  rw [if_neg h1, if_pos hlt]

theorem c3_witness : identify_hotspots exCold (1/100) 3 30 = some [] :=
  c3_insufficient_data exCold (1/100) 3 30 (by decide) (by decide)

/-- C4 counterexample: on the empty report set `identify_hotspots` returns
the null marker (`return None` at line 21 of the source), which is not the
empty sequence the claim promises. -/
theorem c4_counterexample :
    identify_hotspots ([] : List Report) (1/100) 3 30 = none ∧
    (none : Option (List Hotspot)) ≠ some [] := by decide

/-- C4 (amended): for the empty report set and any parameters,
`identify_hotspots` returns the null marker `None` (and in particular does
not raise: the branch is a plain early return). -/
theorem c4_empty_returns_none (eps : ℚ) (ms : ℕ) (thr : ℚ) :
    identify_hotspots [] eps ms thr = none := rfl

/-- C8: detection has no effect on the report store: the store threaded
through the call comes back unchanged (every report, count, and order), and
the result is the pure function of the inputs. In the source the only write
during detection is the cluster-column assignment, performed on an explicit
`.copy()` of the filtered dataframe, never on the input collection. -/
theorem c8_detector_preserves_store (store : List Report) (eps : ℚ) (ms : ℕ)
    (thr : ℚ) :
    (identify_hotspots_frame store eps ms thr).2 = store ∧
    (identify_hotspots_frame store eps ms thr).1 =
      identify_hotspots store eps ms thr :=
  ⟨rfl, rfl⟩

/-- C9: the code at the failing input. Submitting with time choice "Custom"
and backdated timestamp "2020-01-01 00:00:00" (server clock
"2025-06-01 12:00:00") stores a report whose timestamp is the server clock:
`add_community_report` has no timestamp parameter and the handler's computed
custom timestamp is discarded, so no stored report ever carries the
caller-supplied timestamp. -/
theorem c9_custom_timestamp_discarded :
    (submitTemperatureReport "2025-06-01 12:00:00" "Custom"
        "2020-01-01 00:00:00" 10 20 30 "desc" "Reporter" []).2 =
      [{ latitude := 10, longitude := 20, temperature := 30,
         timestamp := "2025-06-01 12:00:00", description := "desc",
         reporter := "Reporter" }] ∧
    ∀ r ∈ (submitTemperatureReport "2025-06-01 12:00:00" "Custom"
        "2020-01-01 00:00:00" 10 20 30 "desc" "Reporter" []).2,
      r.timestamp ≠ "2020-01-01 00:00:00" := by decide

/-- C10: severity is computed from the cluster's unrounded mean temperature
before the output temperature is rounded to 1 decimal: on a cluster with
unrounded mean 34.96 the classifier yields "High" while the rounding yields
35.0, so `identify_hotspots` returns a hotspot whose temperature field reads
35.0 with severity "High", not "Extreme". -/
theorem c10_severity_from_unrounded_mean :
    mean ((clusterMembers exC10 (1/100) 3 30 0).map (fun r => r.temperature)) =
      3496/100 ∧
    calculate_severity (3496/100) = "High" ∧
    round1 (3496/100) = 35 ∧
    identify_hotspots exC10 (1/100) 3 30 =
      some [{ latitude := 20, longitude := 30, temperature := 35,
              severity := "High" }] := by decide

/-- C2 counterexample: on three co-located reports of temperature 34.96 the
returned hotspot has temperature field 35.0 (the rounded mean) but severity
"High", so severity is NOT "Extreme" iff the temperature field is at least
35.0. -/
theorem c2_counterexample :
    ¬ (∀ h ∈ (identify_hotspots exC2 (1/100) 3 30).getD [],
        (h.severity = "Extreme" ↔ (35:ℚ) ≤ h.temperature)) := by decide

/-- C2 (amended): for every report set and parameters, each returned
hotspot's severity is the deterministic monotone classification of its
cluster's UNROUNDED mean temperature (not of the rounded temperature field):
"Extreme" iff the mean is at least 35.0, "High" iff it is in [32.0, 35.0),
and "Moderate" iff it is in [temp_threshold, 32.0). -/
theorem c2_severity_from_cluster_mean (df : List Report) (eps : ℚ) (ms : ℕ)
    (thr : ℚ) (hs : List Hotspot) (h : Hotspot)
    (hres : identify_hotspots df eps ms thr = some hs) (hmem : h ∈ hs) :
    ∃ c, c ∈ clusterIds df eps ms thr ∧
      ((h.severity = "Extreme" ↔
          35 ≤ mean ((clusterMembers df eps ms thr c).map (fun r => r.temperature))) ∧
       (h.severity = "High" ↔
          32 ≤ mean ((clusterMembers df eps ms thr c).map (fun r => r.temperature)) ∧
          mean ((clusterMembers df eps ms thr c).map (fun r => r.temperature)) < 35) ∧
       (h.severity = "Moderate" ↔
          thr ≤ mean ((clusterMembers df eps ms thr c).map (fun r => r.temperature)) ∧
          mean ((clusterMembers df eps ms thr c).map (fun r => r.temperature)) < 32)) := by
  obtain ⟨c, hc, rfl⟩ := exists_clusterId_of_mem df eps ms thr hs h hres hmem
  refine ⟨c, hc, ?_⟩
  have hthr : thr ≤ mean ((clusterMembers df eps ms thr c).map (fun r => r.temperature)) :=
    thr_le_mean_temp hc
  have hsev : (mkHotspot df eps ms thr c).severity =
      calculate_severity (mean ((clusterMembers df eps ms thr c).map (fun r => r.temperature))) := by
    simp [mkHotspot]
  rw [hsev]
  unfold calculate_severity
  rcases le_or_lt 35 (mean ((clusterMembers df eps ms thr c).map (fun r => r.temperature)))
    with h35 | h35
  · rw [if_pos h35]
    refine ⟨⟨fun _ => h35, fun _ => rfl⟩, ?_, ?_⟩
    · constructor
      · intro habs
        exact absurd habs (by decide)
      · intro hx
        exact absurd hx.2 (not_lt.mpr h35)
    · constructor
      · intro habs
        exact absurd habs (by decide)
      · intro hx
        exact absurd (hx.2.trans (by norm_num)) (not_lt.mpr h35)
  · rw [if_neg (not_le.mpr h35)]
    rcases le_or_lt 32 (mean ((clusterMembers df eps ms thr c).map (fun r => r.temperature)))
      with h32 | h32
    · rw [if_pos h32]
      refine ⟨?_, ⟨fun _ => ⟨h32, h35⟩, fun _ => rfl⟩, ?_⟩
      · constructor
        · intro habs
          exact absurd habs (by decide)
        · intro hx
          exact absurd hx (not_le.mpr h35)
      · constructor
        · intro habs
          exact absurd habs (by decide)
        · intro hx
          exact absurd hx.2 (not_lt.mpr h32)
    · rw [if_neg (not_le.mpr h32)]
      refine ⟨?_, ?_, ⟨fun _ => ⟨hthr, h32⟩, fun _ => rfl⟩⟩
      · constructor
        · intro habs
          exact absurd habs (by decide)
        · intro hx
          exact absurd (h32.trans_le (by norm_num)) (not_lt.mpr hx)
      · constructor
        · intro habs
          exact absurd habs (by decide)
        · intro hx
          exact absurd hx.1 (not_le.mpr h32)

theorem c2_witness : ∃ c, c ∈ clusterIds exC2 (1/100) 3 30 ∧
    ((("High" : String) = "Extreme" ↔
        35 ≤ mean ((clusterMembers exC2 (1/100) 3 30 c).map (fun r => r.temperature))) ∧
     (("High" : String) = "High" ↔
        32 ≤ mean ((clusterMembers exC2 (1/100) 3 30 c).map (fun r => r.temperature)) ∧
        mean ((clusterMembers exC2 (1/100) 3 30 c).map (fun r => r.temperature)) < 35) ∧
     (("High" : String) = "Moderate" ↔
        (30:ℚ) ≤ mean ((clusterMembers exC2 (1/100) 3 30 c).map (fun r => r.temperature)) ∧
        mean ((clusterMembers exC2 (1/100) 3 30 c).map (fun r => r.temperature)) < 32)) :=
  c2_severity_from_cluster_mean exC2 (1/100) 3 30
    [{ latitude := 10, longitude := 10, temperature := 35, severity := "High" }]
    { latitude := 10, longitude := 10, temperature := 35, severity := "High" }
    (by decide) (by decide)

/-- C5: for every report set and parameters, each returned hotspot's latitude
and longitude are the arithmetic means of the latitudes and longitudes of
exactly the (nonempty) set of filtered reports assigned to its cluster. -/
theorem c5_centroid_is_cluster_mean (df : List Report) (eps : ℚ) (ms : ℕ)
    (thr : ℚ) (hs : List Hotspot) (h : Hotspot)
    (hres : identify_hotspots df eps ms thr = some hs) (hmem : h ∈ hs) :
    ∃ c, c ∈ clusterIds df eps ms thr ∧
      clusterMembers df eps ms thr c ≠ [] ∧
      h.latitude = mean ((clusterMembers df eps ms thr c).map (fun r => r.latitude)) ∧
      h.longitude = mean ((clusterMembers df eps ms thr c).map (fun r => r.longitude)) := by
  obtain ⟨c, hc, rfl⟩ := exists_clusterId_of_mem df eps ms thr hs h hres hmem
  exact ⟨c, hc, clusterMembers_ne_nil hc, by simp [mkHotspot], by simp [mkHotspot]⟩

theorem c5_witness : ∃ c, c ∈ clusterIds ex1 (1/100) 3 30 ∧
    clusterMembers ex1 (1/100) 3 30 c ≠ [] ∧
    (40.701 : ℚ) = mean ((clusterMembers ex1 (1/100) 3 30 c).map (fun r => r.latitude)) ∧
    (-74.001 : ℚ) = mean ((clusterMembers ex1 (1/100) 3 30 c).map (fun r => r.longitude)) :=
  c5_centroid_is_cluster_mean ex1 (1/100) 3 30
    [{ latitude := 40.701, longitude := -74.001, temperature := 35,
       severity := "Extreme" }]
    { latitude := 40.701, longitude := -74.001, temperature := 35,
      severity := "Extreme" }
    (by decide) (by decide)

/-- C6: for every city name, every requested number of points, every
nonnegative radius and every sequence of random draws in [0, 1),
`generate_coordinates_around_city` returns exactly `num_points` (latitude,
longitude) pairs, each within `radius` of the resolved city center in planar
degree distance. -/
theorem c6_generate_length_and_radius (city_name : String) (num_points : ℕ)
    (radius : ℝ) (draws : ℕ → ℝ × ℝ) (hr : 0 ≤ radius)
    (hd : ∀ i, 0 ≤ (draws i).1 ∧ (draws i).1 ≤ 1) :
    (generate_coordinates_around_city city_name num_points radius draws).length =
      num_points ∧
    ∀ p ∈ generate_coordinates_around_city city_name num_points radius draws,
      planarDist p (((cityCenter city_name).1 : ℝ), ((cityCenter city_name).2 : ℝ)) ≤
        radius := by
  constructor
  · simp [generate_coordinates_around_city]
  · intro p hp
    rw [generate_coordinates_around_city] at hp
    obtain ⟨i, hi, rfl⟩ := List.mem_map.mp hp
    have hu := hd i
    simp only [planarDist, add_sub_cancel_left]
    have key : (radius * Real.sqrt (draws i).1 *
          Real.sin (2 * Real.pi * (draws i).2)) ^ 2 +
        (radius * Real.sqrt (draws i).1 *
          Real.cos (2 * Real.pi * (draws i).2)) ^ 2 =
        (radius * Real.sqrt (draws i).1) ^ 2 := by
      rw [mul_pow (radius * Real.sqrt (draws i).1)
            (Real.sin (2 * Real.pi * (draws i).2)) 2,
          mul_pow (radius * Real.sqrt (draws i).1)
            (Real.cos (2 * Real.pi * (draws i).2)) 2,
          ← mul_add, Real.sin_sq_add_cos_sq, mul_one]
    rw [key, Real.sqrt_sq (mul_nonneg hr (Real.sqrt_nonneg _))]
    calc radius * Real.sqrt (draws i).1
        ≤ radius * 1 :=
          mul_le_mul_of_nonneg_left (Real.sqrt_le_one.mpr hu.2) hr
      _ = radius := mul_one radius

theorem c6_witness :
    (generate_coordinates_around_city "New York" 1 1 (fun _ => (0, 0))).length = 1 ∧
    ∀ p ∈ generate_coordinates_around_city "New York" 1 1 (fun _ => (0, 0)),
      planarDist p (((cityCenter "New York").1 : ℝ), ((cityCenter "New York").2 : ℝ)) ≤ 1 :=
  c6_generate_length_and_radius "New York" 1 1 (fun _ => (0, 0)) zero_le_one
    (fun _ => ⟨le_refl 0, zero_le_one⟩)

/-- C7: for every city name absent from the fixed city table,
`generate_coordinates_around_city` never fails and behaves exactly as if
"New York" (the default city) had been requested, for any point count,
radius and draw sequence. -/
theorem c7_unknown_city_falls_back (city_name : String)
    (h : city_name ∉ cityNames) (num_points : ℕ) (radius : ℝ)
    (draws : ℕ → ℝ × ℝ) :
    generate_coordinates_around_city city_name num_points radius draws =
    generate_coordinates_around_city "New York" num_points radius draws := by
  have hfind : city_centers.find? (fun p => p.1 == city_name) = none := by
    apply List.find?_eq_none.mpr
    intro p hp
    intro hbeq
    have hp1 : p.1 = city_name := eq_of_beq hbeq
    exact h (hp1 ▸ List.mem_map_of_mem Prod.fst hp)
  have hcc : cityCenter city_name = cityCenter "New York" := by
    rw [cityCenter, hfind]
    rfl
  rw [generate_coordinates_around_city, generate_coordinates_around_city, hcc]

theorem c7_witness :
    generate_coordinates_around_city "Gotham" 5 1 (fun _ => (0, 0)) =
    generate_coordinates_around_city "New York" 5 1 (fun _ => (0, 0)) :=
  c7_unknown_city_falls_back "Gotham" (by decide) 5 1 (fun _ => (0, 0))
